import Mathlib

/-!
Shallow embedding of the TSPL thermal-printer protocol layer of this
repository: the label configuration, the command emitter
(`ThermalPrinter.setup_page` / `ThermalPrinter.print_barcode` from
`barcode_printer_gui.py`), the readiness check
(`printer_status` / `can_print` / `wait_printer`), the dry-run versus
device transport (`ThermalPrinter.command`), and the badge command-line
path (`Badge.print` / `Printer.print` from `print-badge.py`).
-/

/-- Printer dots per millimetre, `DOTS_MM = 8` in the source (203 dpi). -/
def DOTS_MM : Int := 8

/-- Mirror of `BarcodeConfig.__init__`: the label configuration record.
Field order and names follow the source. -/
structure BarcodeConfig where
  width_mm : Int
  height_mm : Int
  gap_mm : Int
  barcode_type : String
  barcode_height : Int
  barcode_width : Int
  font_size : Int
  top_text : String
  bottom_text : String
  barcode_data : String
  orientation : Int
  num_copies : Int
deriving Repr, DecidableEq

/-- Default values assigned in `BarcodeConfig.__init__`. -/
def default_config : BarcodeConfig :=
  ⟨100, 50, 2, "code128", 15, 2, 24, "", "", "", 1, 1⟩

/-- One TSPL protocol command, with the operands the source interpolates
into the command string.  Each constructor corresponds to one literal
command format appearing in the source. -/
inductive Cmd where
  | size (w h : Int)
  | gap (g : Int)
  | codepage
  | direction (o : Int)
  | cls
  | text (x y : Int) (font : String) (rot xmult ymult align : Int) (content : String)
  | barcode (x y : Int) (sym : String) (h hr rot narrow wide : Int) (content : String)
  | print (sets copies : Int)
deriving Repr, DecidableEq

/-- Rendering of a command to the exact string the source builds by
f-string interpolation. -/
def Cmd.render : Cmd → String
  | .size w h => "SIZE " ++ toString w ++ " mm," ++ toString h ++ " mm"
  | .gap g => "GAP " ++ toString g ++ " mm,0 mm"
  | .codepage => "CODEPAGE UTF-8"
  | .direction o => "DIRECTION " ++ toString o
  | .cls => "CLS"
  | .text x y f r xm ym a s =>
      "TEXT " ++ toString x ++ "," ++ toString y ++ ",\"" ++ f ++ "\"," ++
        toString r ++ "," ++ toString xm ++ "," ++ toString ym ++ "," ++
        toString a ++ ",\"" ++ s ++ "\""
  | .barcode x y sym h hr r n w s =>
      "BARCODE " ++ toString x ++ "," ++ toString y ++ ",\"" ++ sym ++ "\"," ++
        toString h ++ "," ++ toString hr ++ "," ++ toString r ++ "," ++
        toString n ++ "," ++ toString w ++ ",\"" ++ s ++ "\""
  | .print s c => "PRINT " ++ toString s ++ "," ++ toString c

/-- Kind tests on commands. -/
def Cmd.isText : Cmd → Bool
  | .text .. => true
  | _ => false

def Cmd.isBarcode : Cmd → Bool
  | .barcode .. => true
  | _ => false

/-- A drawing command in the sense of the spec: TEXT or BARCODE. -/
def Cmd.isDraw : Cmd → Bool
  | .text .. => true
  | .barcode .. => true
  | _ => false

def Cmd.isPrintCmd : Cmd → Bool
  | .print .. => true
  | _ => false

/-- Mirror of `ThermalPrinter.setup_page`: the five preamble commands, in
source order. -/
def setup_page (c : BarcodeConfig) : List Cmd :=
  [Cmd.size c.width_mm c.height_mm, Cmd.gap c.gap_mm, Cmd.codepage,
   Cmd.direction c.orientation, Cmd.cls]

/-- Mirror of `ThermalPrinter.print_barcode`: the full sequence of
commands issued through `self.command`, in source order.  `y_pos` starts
at 10; after the top text it advances by `font_size + 10`, after the
barcode by `barcode_height * DOTS_MM + 20`.  An element is emitted iff
its string content is non-empty (Python truthiness of the string). -/
def print_barcode (c : BarcodeConfig) : List Cmd :=
  let width_dots := c.width_mm * DOTS_MM
  let x_center := width_dots.fdiv 2
  let y0 : Int := 10
  let top := if c.top_text ≠ "" then
      [Cmd.text x_center y0 "0" 0 c.font_size c.font_size 2 c.top_text] else []
  let y1 := if c.top_text ≠ "" then y0 + c.font_size + 10 else y0
  let barcode_height_dots := c.barcode_height * DOTS_MM
  let bc := if c.barcode_data ≠ "" then
      [Cmd.barcode x_center y1 "128" barcode_height_dots 1 0 c.barcode_width 2 c.barcode_data]
    else []
  let y2 := if c.barcode_data ≠ "" then y1 + barcode_height_dots + 20 else y1
  let bot := if c.bottom_text ≠ "" then
      [Cmd.text x_center y2 "0" 0 c.font_size c.font_size 2 c.bottom_text] else []
  setup_page c ++ top ++ bc ++ bot ++ [Cmd.print 1 c.num_copies]

/-- Mirror of `ThermalPrinter.can_print` on a decoded status token: the
regex `re.fullmatch` against the pattern that accepts exactly four
characters, the first in `{@, B, C, F, P, W}` and the rest `@`. -/
def can_print (s : String) : Bool :=
  match s.data with
  | [c0, c1, c2, c3] =>
      (c0 == '@' || c0 == 'B' || c0 == 'C' || c0 == 'F' || c0 == 'P' || c0 == 'W')
        && c1 == '@' && c2 == '@' && c3 == '@'
  | _ => false

/-- Spec-side readiness predicate, written from the spec sentence: the
token has four characters, its first character belongs to the accepted
set and the remaining three characters are all the idle marker. -/
def ready_spec (s : String) : Prop :=
  s.length = 4 ∧
  (s.data.take 1).all
    (fun c => c == '@' || c == 'B' || c == 'C' || c == 'F' || c == 'P' || c == 'W') = true ∧
  (s.data.drop 1).all (fun c => c == '@') = true

/-- Python `bytes.decode('ascii')`: succeeds iff every byte is below
128; a failing decode raises `UnicodeDecodeError`, modelled as `none`. -/
def asciiDecode (bs : List Nat) : Option String :=
  if bs.all (fun b => b < 128) then some (String.mk (bs.map Char.ofNat)) else none

/-- Number of bytes requested from the device by `printer_status`,
`os.read(self.printer, 8)` in the source. -/
def statusReadCount : Nat := 8

/-- The fixed binary status probe `b"\x1B!S\r\n"` written before the read. -/
def statusProbe : List Nat := [27, 33, 83, 13, 10]

/-- Mirror of `ThermalPrinter.printer_status` applied to the byte
response delivered by the device: `status[1:5].decode('ascii')`.  `none`
models a raised `UnicodeDecodeError`. -/
def printer_status (resp : List Nat) : Option String :=
  asciiDecode ((resp.drop 1).take 4)

/-- `can_print` composed with the status read: `none` models the decode
exception propagating out of `can_print`. -/
def can_print_resp (resp : List Nat) : Option Bool :=
  (printer_status resp).map can_print

/-- The `while not can_print(): time.sleep(1)` loop of
`ThermalPrinter.wait_printer`, run against a finite trace of readiness
answers: returns the number of status queries made and the chronological
list of sleep durations, or `none` if the trace is exhausted before the
device reports ready (the real loop would still be blocked). -/
def waitLoop : List Bool → Option (Nat × List ℚ)
  | [] => none
  | true :: _ => some (1, [])
  | false :: rest => (waitLoop rest).map (fun qs => (qs.1 + 1, (1 : ℚ) :: qs.2))

/-- Mirror of `ThermalPrinter.wait_printer` (non-dry-run path): one
initial `can_print` query; if not ready, sleep 0.5 and enter the retry
loop which sleeps 1.0 after each further not-ready answer.  Returns
(number of status queries, chronological sleep durations). -/
def wait_printer_trace : List Bool → Option (Nat × List ℚ)
  | [] => none
  | true :: _ => some (1, [])
  | false :: rest => (waitLoop rest).map (fun qs => (qs.1 + 1, (1 : ℚ)/2 :: qs.2))

/-- Observable transport state: the console lines printed in dry-run
mode and the write payloads sent to the device file otherwise. -/
structure PrinterState where
  console : List String
  device : List String
deriving Repr, DecidableEq

/-- Mirror of `ThermalPrinter.command` (Linux path): in dry-run the
command line is printed to the console; otherwise the UTF-8 command
bytes and a CRLF are written to the device. -/
def command (dry_run : Bool) (cmd : String) (s : PrinterState) : PrinterState :=
  if dry_run then { s with console := s.console ++ [cmd] }
  else { s with device := s.device ++ [cmd, "\r\n"] }

/-- Running all commands of one `print_barcode` call through
`ThermalPrinter.command` in the given mode. -/
def run_print_barcode (dry_run : Bool) (c : BarcodeConfig) (s : PrinterState) : PrinterState :=
  (print_barcode c).foldl (fun st cmd => command dry_run cmd.render st) s

/-- Count of non-empty drawable elements of a configuration (spec-side
quantity used by the command-count claim). -/
def num_elements (c : BarcodeConfig) : Nat :=
  (if c.top_text ≠ "" then 1 else 0) + (if c.barcode_data ≠ "" then 1 else 0) +
    (if c.bottom_text ≠ "" then 1 else 0)

/-- The horizontal centre `width_dots // 2` computed in `print_barcode`. -/
def x_center (c : BarcodeConfig) : Int := (c.width_mm * DOTS_MM).fdiv 2

/-- The fixed start position `y_pos = 10` of `print_barcode`. -/
def y_top : Int := 10

/-- Value of `y_pos` when the barcode command is emitted. -/
def y_barcode (c : BarcodeConfig) : Int :=
  if c.top_text ≠ "" then y_top + c.font_size + 10 else y_top

/-- Value of `y_pos` when the bottom text command is emitted. -/
def y_bottom (c : BarcodeConfig) : Int :=
  if c.barcode_data ≠ "" then y_barcode c + c.barcode_height * DOTS_MM + 20 else y_barcode c

/-- The (zero- or one-element) list of TEXT commands for the top text. -/
def top_cmds (c : BarcodeConfig) : List Cmd :=
  if c.top_text ≠ "" then
    [Cmd.text (x_center c) y_top "0" 0 c.font_size c.font_size 2 c.top_text] else []

/-- The (zero- or one-element) list of BARCODE commands. -/
def barcode_cmds (c : BarcodeConfig) : List Cmd :=
  if c.barcode_data ≠ "" then
    [Cmd.barcode (x_center c) (y_barcode c) "128" (c.barcode_height * DOTS_MM) 1 0
      c.barcode_width 2 c.barcode_data]
  else []

/-- The (zero- or one-element) list of TEXT commands for the bottom text. -/
def bottom_cmds (c : BarcodeConfig) : List Cmd :=
  if c.bottom_text ≠ "" then
    [Cmd.text (x_center c) (y_bottom c) "0" 0 c.font_size c.font_size 2 c.bottom_text] else []

/-- Decomposition of `print_barcode` into preamble, the three optional
drawing commands, and the final PRINT command; definitional. -/
lemma print_barcode_eq (c : BarcodeConfig) :
    print_barcode c =
      setup_page c ++ top_cmds c ++ barcode_cmds c ++ bottom_cmds c ++
        [Cmd.print 1 c.num_copies] := rfl

lemma mem_top_cmds {c : BarcodeConfig} {x : Cmd} (h : x ∈ top_cmds c) : x.isText = true := by
  unfold top_cmds at h
  split at h <;> simp_all [Cmd.isText]

lemma mem_barcode_cmds {c : BarcodeConfig} {x : Cmd} (h : x ∈ barcode_cmds c) :
    x.isBarcode = true := by
  unfold barcode_cmds at h
  split at h <;> simp_all [Cmd.isBarcode]

lemma mem_bottom_cmds {c : BarcodeConfig} {x : Cmd} (h : x ∈ bottom_cmds c) :
    x.isText = true := by
  unfold bottom_cmds at h
  split at h <;> simp_all [Cmd.isText]

lemma isText_props {x : Cmd} (h : x.isText = true) :
    x.isDraw = true ∧ x.isPrintCmd = false ∧ x.isBarcode = false := by
  cases x <;> simp_all [Cmd.isText, Cmd.isDraw, Cmd.isPrintCmd, Cmd.isBarcode]

lemma isBarcode_props {x : Cmd} (h : x.isBarcode = true) :
    x.isDraw = true ∧ x.isPrintCmd = false ∧ x.isText = false := by
  cases x <;> simp_all [Cmd.isText, Cmd.isDraw, Cmd.isPrintCmd, Cmd.isBarcode]

namespace PrintBadge

/-- Constants at the top of `print-badge.py`. -/
def WIDTH_MM : Int := 100

def HEIGHT_MM : Int := 35

def GAP_MM : Int := 2

def FONT : String := "0"

def FONT_WIDTH : Int := 36

def FONT_HEIGHT : Int := 36

def FONT_X_MULT : Int := FONT_WIDTH

def FONT_Y_MULT : Int := FONT_HEIGHT

def BADGE_GAP_MM : Int := 5

def LINES_GAP_MM : Int := 1

/-- `Badge.width = WIDTH_MM * DOTS_MM`. -/
def badge_width : Int := WIDTH_MM * DOTS_MM

/-- `Badge.x_center = width // 2`. -/
def x_center : Int := badge_width.fdiv 2

/-- `Badge.y_first_line = BADGE_GAP_MM * DOTS_MM`. -/
def y_first_line : Int := BADGE_GAP_MM * DOTS_MM

/-- `Badge.line_height = (FONT_HEIGHT // 3 + LINES_GAP_MM) * DOTS_MM`. -/
def line_height : Int := (FONT_HEIGHT.fdiv 3 + LINES_GAP_MM) * DOTS_MM

/-- `Badge.y_second_line = y_first_line + line_height`. -/
def y_second_line : Int := y_first_line + line_height

/-- Mirror of `Badge.print`: CLS followed by exactly two TEXT commands,
one per line, emitted unconditionally. -/
def badge_cmds (line1 line2 : String) : List Cmd :=
  [Cmd.cls,
   Cmd.text x_center y_first_line FONT 0 FONT_X_MULT FONT_Y_MULT 2 line1,
   Cmd.text x_center y_second_line FONT 0 FONT_X_MULT FONT_Y_MULT 2 line2]

/-- Mirror of `Printer.page_setup`: four commands, no CLS here. -/
def page_setup (orient : Int) : List Cmd :=
  [Cmd.size WIDTH_MM HEIGHT_MM, Cmd.gap GAP_MM, Cmd.codepage, Cmd.direction orient]

/-- Mirror of `Printer.print`: page setup, then the badge commands, then
the PRINT command. -/
def printer_print_cmds (line1 line2 : String) (num orient : Int) : List Cmd :=
  page_setup orient ++ badge_cmds line1 line2 ++ [Cmd.print 1 num]

end PrintBadge

lemma waitLoop_replicate (n : Nat) :
    waitLoop (List.replicate n false ++ [true]) = some (n + 1, List.replicate n (1 : ℚ)) := by
  induction n with
  | zero => rfl
  | succ k ih => simp [List.replicate_succ, waitLoop, ih]

/-- Claim C1: in the sequence produced by one print operation, CLS precedes
every TEXT/BARCODE drawing command, and PRINT is the last command. -/
theorem cls_precedes_drawing_and_print_is_last (c : BarcodeConfig) :
    (∃ pre post, print_barcode c = pre ++ Cmd.cls :: post ∧
        ∀ cmd ∈ pre, cmd.isDraw = false) ∧
    (∃ front, print_barcode c = front ++ [Cmd.print 1 c.num_copies] ∧
        ∀ cmd ∈ front, cmd.isPrintCmd = false) := by
  constructor
  · refine ⟨[Cmd.size c.width_mm c.height_mm, Cmd.gap c.gap_mm, Cmd.codepage,
        Cmd.direction c.orientation],
      top_cmds c ++ barcode_cmds c ++ bottom_cmds c ++ [Cmd.print 1 c.num_copies], ?_, ?_⟩
    · rw [print_barcode_eq]; simp [setup_page]
    · intro cmd h
      simp only [List.mem_cons, List.not_mem_nil, or_false] at h
      rcases h with rfl | rfl | rfl | rfl <;> rfl
  · refine ⟨setup_page c ++ top_cmds c ++ barcode_cmds c ++ bottom_cmds c, ?_, ?_⟩
    · rw [print_barcode_eq]
    · intro cmd h
      simp only [List.append_assoc, List.mem_append] at h
      rcases h with h | h | h | h
      · unfold setup_page at h
        simp only [List.mem_cons, List.not_mem_nil, or_false] at h
        rcases h with rfl | rfl | rfl | rfl | rfl <;> rfl
      · exact (isText_props (mem_top_cmds h)).2.1
      · exact (isBarcode_props (mem_barcode_cmds h)).2.1
      · exact (isText_props (mem_bottom_cmds h)).2.1

/-- Claim C2: readiness iff first char in the accepted set and the other
three are the idle marker; acceptance table. -/
theorem can_print_iff_ready_spec :
    (∀ s, can_print s = true ↔ ready_spec s) ∧
    can_print "@@@@" = true ∧ can_print "B@@@" = true ∧ can_print "C@@@" = true ∧
    can_print "F@@@" = true ∧ can_print "P@@@" = true ∧ can_print "W@@@" = true ∧
    can_print "E@@@" = false ∧ can_print "@B@@" = false ∧ can_print "" = false := by
  refine ⟨?_, by decide, by decide, by decide, by decide, by decide, by decide,
    by decide, by decide, by decide⟩
  intro s
  obtain ⟨l⟩ := s
  rcases l with _ | ⟨c0, _ | ⟨c1, _ | ⟨c2, _ | ⟨c3, _ | ⟨c4, rest⟩⟩⟩⟩⟩
  all_goals simp [can_print, ready_spec, String.length]
  all_goals tauto

/-- Claim C3: empty elements are omitted; command count is 5 + one per
non-empty element + 1. -/
theorem empty_elements_omitted (c : BarcodeConfig) :
    ((print_barcode c).countP Cmd.isText =
        (if c.top_text ≠ "" then 1 else 0) + (if c.bottom_text ≠ "" then 1 else 0)) ∧
    ((print_barcode c).countP Cmd.isBarcode = (if c.barcode_data ≠ "" then 1 else 0)) ∧
    (print_barcode c).length = 5 + num_elements c + 1 := by
  rw [print_barcode_eq]
  unfold top_cmds barcode_cmds bottom_cmds setup_page num_elements
  split_ifs <;>
    simp [List.countP_cons, List.countP_append, Cmd.isText, Cmd.isBarcode]

/-- Claim C5: two NotReady answers then Ready give exactly 3 queries with
sleeps 0.5 then 1.0, total 1.5; and retries are unbounded. -/
theorem wait_printer_backoff :
    (∀ rest : List Bool,
      wait_printer_trace (false :: false :: true :: rest) = some (3, [(1:ℚ)/2, 1])) ∧
    ([(1:ℚ)/2, 1].sum = 3/2) ∧
    (∀ n : Nat,
      wait_printer_trace (List.replicate (n + 1) false ++ [true]) =
        some (n + 2, (1:ℚ)/2 :: List.replicate n 1)) := by
  refine ⟨fun rest => rfl, by norm_num, fun n => ?_⟩
  simp [List.replicate_succ, wait_printer_trace, waitLoop_replicate]

lemma can_print_short (l : List Char) (h : l.length ≠ 4) : can_print ⟨l⟩ = false := by
  rcases l with _ | ⟨c0, _ | ⟨c1, _ | ⟨c2, _ | ⟨c3, _ | ⟨c4, rest⟩⟩⟩⟩⟩ <;>
    simp_all [can_print]

lemma slice_all_ascii {resp : List Nat} (hd : resp.all (fun b => b < 128) = true) :
    ((resp.drop 1).take 4).all (fun b => b < 128) = true := by
  rw [List.all_eq_true] at hd ⊢
  intro b hb
  exact hd b (List.drop_subset 1 resp (List.take_subset 4 _ hb))

/-- Configuration with a non-positive width (all other fields default). -/
def cfg_invalid : BarcodeConfig := { default_config with width_mm := 0 }

/-- Claim C4 counterexample: with width_mm = 0 the print operation does not
stop before I/O; the full command sequence is still emitted and written. -/
theorem zero_width_emits_commands :
    cfg_invalid.width_mm ≤ 0 ∧ print_barcode cfg_invalid ≠ [] ∧
    (print_barcode cfg_invalid).head? = some (Cmd.size 0 50) ∧
    (run_print_barcode false cfg_invalid ⟨[], []⟩).device ≠ [] := by decide

/-- Claim C4 amended: the code performs no geometry validation; for
non-positive dimensions the operation proceeds and emits the normal
command count, starting with a SIZE command carrying the bad values. -/
theorem no_geometry_validation (c : BarcodeConfig)
    (_h : c.width_mm ≤ 0 ∨ c.height_mm ≤ 0) :
    (print_barcode c).length = 5 + num_elements c + 1 ∧
    (print_barcode c).head? = some (Cmd.size c.width_mm c.height_mm) := by
  constructor
  · rw [print_barcode_eq]
    unfold top_cmds barcode_cmds bottom_cmds setup_page num_elements
    split_ifs <;> simp
  · rw [print_barcode_eq]
    simp [setup_page]

theorem no_geometry_validation_witness :
    (print_barcode cfg_invalid).length = 5 + num_elements cfg_invalid + 1 ∧
    (print_barcode cfg_invalid).head? =
      some (Cmd.size cfg_invalid.width_mm cfg_invalid.height_mm) :=
  no_geometry_validation cfg_invalid (Or.inl (by decide))

/-- Claim C6 counterexample: a status response whose token bytes are not
ASCII-decodable makes the readiness check raise (modelled as `none`)
instead of reporting NotReady. -/
theorem undecodable_status_raises :
    can_print_resp [27, 200, 200, 200, 200, 0, 0, 0] = none ∧
    ∀ b : Bool, can_print_resp [27, 200, 200, 200, 200, 0, 0, 0] ≠ some b := by decide

/-- Claim C6 amended: malformed responses are not uniformly NotReady.
A response whose token bytes decode is judged solely by the 4-byte token
slice `[1:5)`, so a decodable response of wrong length can even read
Ready (witnessed by the 6-byte response below); only a decodable
response shorter than 5 bytes always reads NotReady, because its token
is shorter than 4 characters; undecodable token bytes raise instead
(the counterexample theorem). -/
theorem malformed_status_behavior (resp : List Nat)
    (hd : ((resp.drop 1).take 4).all (fun b => b < 128) = true) :
    can_print_resp resp =
      some (can_print (String.mk (((resp.drop 1).take 4).map Char.ofNat))) ∧
    (resp.length < 5 → can_print_resp resp = some false) ∧
    can_print_resp [0, 64, 64, 64, 64, 0] = some true ∧
    ([0, 64, 64, 64, 64, 0] : List Nat).length ≠ statusReadCount := by
  have h1 : can_print_resp resp =
      some (can_print (String.mk (((resp.drop 1).take 4).map Char.ofNat))) := by
    unfold can_print_resp printer_status asciiDecode
    rw [if_pos hd, Option.map_some']
  refine ⟨h1, ?_, by decide, by decide⟩
  intro hlen
  have hsh : (((resp.drop 1).take 4).map Char.ofNat).length ≠ 4 := by
    simp only [List.length_map, List.length_take, List.length_drop]
    omega
  rw [h1, can_print_short _ hsh]

theorem malformed_status_behavior_witness :
    can_print_resp [0, 64, 64] =
      some (can_print
        (String.mk (((([0, 64, 64] : List Nat).drop 1).take 4).map Char.ofNat))) ∧
    (([0, 64, 64] : List Nat).length < 5 → can_print_resp [0, 64, 64] = some false) ∧
    can_print_resp [0, 64, 64, 64, 64, 0] = some true ∧
    ([0, 64, 64, 64, 64, 0] : List Nat).length ≠ statusReadCount :=
  malformed_status_behavior [0, 64, 64] (by decide)

/-- Claim C7: the status read requests 8 bytes, and for an 8-byte
decodable response the token is exactly the decoded byte range [1, 5),
a 4-character code. -/
theorem status_token_four_chars (resp : List Nat)
    (hlen : resp.length = statusReadCount) (hd : resp.all (fun b => b < 128) = true) :
    statusReadCount = 8 ∧
    ∃ t, printer_status resp = some t ∧ t.length = 4 ∧
      t.data = ((resp.drop 1).take 4).map Char.ofNat := by
  have h8 : resp.length = 8 := by simpa [statusReadCount] using hlen
  refine ⟨rfl, String.mk (((resp.drop 1).take 4).map Char.ofNat), ?_, ?_, rfl⟩
  · unfold printer_status asciiDecode
    rw [if_pos (slice_all_ascii hd)]
  · show (((resp.drop 1).take 4).map Char.ofNat).length = 4
    simp [List.length_map, List.length_take, List.length_drop, h8]

theorem status_token_four_chars_witness :
    statusReadCount = 8 ∧
    ∃ t, printer_status [0, 64, 64, 64, 64, 0, 0, 0] = some t ∧ t.length = 4 ∧
      t.data = (([0, 64, 64, 64, 64, 0, 0, 0].drop 1).take 4).map Char.ofNat :=
  status_token_four_chars [0, 64, 64, 64, 64, 0, 0, 0] (by decide) (by decide)

lemma run_print_barcode_dry (c : BarcodeConfig) (s : PrinterState) :
    run_print_barcode true c s =
      ⟨s.console ++ (print_barcode c).map Cmd.render, s.device⟩ := by
  unfold run_print_barcode
  generalize print_barcode c = cmds
  induction cmds generalizing s with
  | nil => cases s; simp
  | cons a l ih =>
      simp only [List.foldl_cons, ih]
      cases s
      simp [command]

/-- Claim C8: dry-run execution writes nothing to the device, its console
log is exactly the emitted command sequence line for line, and two runs
on the same configuration produce identical output. -/
theorem dry_run_matches_emitter (c : BarcodeConfig) (s s2 : PrinterState)
    (h : s.console = []) (h2 : s2.console = []) :
    (run_print_barcode true c s).console = (print_barcode c).map Cmd.render ∧
    (run_print_barcode true c s).device = s.device ∧
    (run_print_barcode true c s).console = (run_print_barcode true c s2).console := by
  simp [run_print_barcode_dry, h, h2]

theorem dry_run_matches_emitter_witness :
    (run_print_barcode true default_config ⟨[], []⟩).console =
      (print_barcode default_config).map Cmd.render ∧
    (run_print_barcode true default_config ⟨[], []⟩).device =
      (⟨[], []⟩ : PrinterState).device ∧
    (run_print_barcode true default_config ⟨[], []⟩).console =
      (run_print_barcode true default_config ⟨[], ["leftover"]⟩).console :=
  dry_run_matches_emitter default_config ⟨[], []⟩ ⟨[], ["leftover"]⟩ rfl rfl

/-- Configuration with all three drawable elements present (values from
the spec's end-to-end scenario). -/
def cfg_layout : BarcodeConfig :=
  { default_config with
      top_text := "PRODUCT", barcode_data := "123456789012", bottom_text := "Made in USA" }

/-- Claim C9 counterexample: with all three elements present the gap
after the top text is 10 dots (44 = 10 + 24 + 10) but the gap after the
barcode is 20 dots (184 = 44 + 120 + 20); no single fixed gap fits both. -/
theorem uneven_inter_element_gaps :
    print_barcode cfg_layout =
      [Cmd.size 100 50, Cmd.gap 2, Cmd.codepage, Cmd.direction 1, Cmd.cls,
       Cmd.text 400 10 "0" 0 24 24 2 "PRODUCT",
       Cmd.barcode 400 44 "128" 120 1 0 2 2 "123456789012",
       Cmd.text 400 184 "0" 0 24 24 2 "Made in USA",
       Cmd.print 1 1] ∧
    ¬ ∃ g : Int, (44 : Int) = 10 + 24 + g ∧ (184 : Int) = 44 + 120 + g := by
  refine ⟨by decide, ?_⟩
  rintro ⟨g, h1, h2⟩
  omega

/-- Claim C9 amended: placement starts at y = 10; the gap added after a
text element is 10 dots while the gap added after the barcode is 20
dots, so the y-offsets accumulate rendered height plus a per-kind gap. -/
theorem layout_gap_10_after_text_20_after_barcode (c : BarcodeConfig)
    (h1 : c.top_text ≠ "") (h2 : c.barcode_data ≠ "") (h3 : c.bottom_text ≠ "") :
    print_barcode c =
      [Cmd.size c.width_mm c.height_mm, Cmd.gap c.gap_mm, Cmd.codepage,
       Cmd.direction c.orientation, Cmd.cls,
       Cmd.text (x_center c) 10 "0" 0 c.font_size c.font_size 2 c.top_text,
       Cmd.barcode (x_center c) (10 + c.font_size + 10) "128" (c.barcode_height * DOTS_MM)
         1 0 c.barcode_width 2 c.barcode_data,
       Cmd.text (x_center c) (10 + c.font_size + 10 + c.barcode_height * DOTS_MM + 20)
         "0" 0 c.font_size c.font_size 2 c.bottom_text,
       Cmd.print 1 c.num_copies] := by
  rw [print_barcode_eq]
  unfold setup_page top_cmds barcode_cmds bottom_cmds y_bottom y_barcode y_top
  simp [h1, h2, h3]

theorem layout_gap_witness :
    print_barcode cfg_layout =
      [Cmd.size cfg_layout.width_mm cfg_layout.height_mm, Cmd.gap cfg_layout.gap_mm,
       Cmd.codepage, Cmd.direction cfg_layout.orientation, Cmd.cls,
       Cmd.text (x_center cfg_layout) 10 "0" 0 cfg_layout.font_size cfg_layout.font_size 2
         cfg_layout.top_text,
       Cmd.barcode (x_center cfg_layout) (10 + cfg_layout.font_size + 10) "128"
         (cfg_layout.barcode_height * DOTS_MM) 1 0 cfg_layout.barcode_width 2
         cfg_layout.barcode_data,
       Cmd.text (x_center cfg_layout)
         (10 + cfg_layout.font_size + 10 + cfg_layout.barcode_height * DOTS_MM + 20)
         "0" 0 cfg_layout.font_size cfg_layout.font_size 2 cfg_layout.bottom_text,
       Cmd.print 1 cfg_layout.num_copies] :=
  layout_gap_10_after_text_20_after_barcode cfg_layout (by decide) (by decide) (by decide)

/-- Claim C10: the badge body is always CLS plus exactly two TEXT
commands, even for empty lines; the whole badge print is 4 preamble
commands, CLS, 2 TEXT commands and PRINT; an empty line renders as a
TEXT command with an empty quoted text operand. -/
theorem badge_two_text_commands (line1 line2 : String) (num orient : Int) :
    (PrintBadge.badge_cmds line1 line2).countP Cmd.isText = 2 ∧
    PrintBadge.printer_print_cmds line1 line2 num orient =
      [Cmd.size PrintBadge.WIDTH_MM PrintBadge.HEIGHT_MM, Cmd.gap PrintBadge.GAP_MM,
       Cmd.codepage, Cmd.direction orient, Cmd.cls,
       Cmd.text PrintBadge.x_center PrintBadge.y_first_line PrintBadge.FONT 0
         PrintBadge.FONT_X_MULT PrintBadge.FONT_Y_MULT 2 line1,
       Cmd.text PrintBadge.x_center PrintBadge.y_second_line PrintBadge.FONT 0
         PrintBadge.FONT_X_MULT PrintBadge.FONT_Y_MULT 2 line2,
       Cmd.print 1 num] ∧
    (PrintBadge.printer_print_cmds line1 line2 num orient).length = 4 + 1 + 2 + 1 ∧
    Cmd.render (Cmd.text PrintBadge.x_center PrintBadge.y_first_line PrintBadge.FONT 0
        PrintBadge.FONT_X_MULT PrintBadge.FONT_Y_MULT 2 "") =
      "TEXT 400,40,\"0\",0,36,36,2,\"\"" := by
  refine ⟨rfl, rfl, rfl, by decide⟩
